import Mathlib

/-
Verification of the dockup backup orchestrator (src/backup.py, src/main.py,
src/config.py, src/email_service.py) against its natural-language
specification.

The embedding models perform_backup as a state-passing function over an
environment that fixes the outcome of every external call (filesystem
listing, tar invocation, SSH connect, remote commands, SFTP upload, SMTP
send).  Observable behaviour is recorded as an event trace plus the set of
local archive files present on disk and the accumulated summary entries.
Exceptions are modelled as an Option String result: none is normal return,
some msg is a propagating Python exception carrying the message str(e).
-/

namespace Dockup

/-- Observable events of one run, in program order: local tar invocation,
remote directory creation, SFTP upload, remote backup-count query, local
archive removal, an email (notification) attempt, the SSH connect attempt
and the SSH session close. -/
inductive Event where
  | tarCreate (archive : String)
  | remoteMkdir (dir : String)
  | upload (archive : String) (dir : String)
  | countQuery (dir : String)
  | removeLocal (archive : String)
  | emailAttempt (subject : String) (body : String)
  | connectAttempt
  | sshClose
  deriving DecidableEq, Repr

/-- One candidate entry of /mnt together with the outcome every external
call would have for it: hasData is whether name/_data is a directory
(enumeration filter, backup.py line 21); tarStatus and tarFileCreated are
the os.system exit status of tar and whether the archive file exists
afterwards (lines 58 and 61); mkdirOk, uploadOk, countOk say whether the
remote mkdir, the sftp.put and the remote count query return without
raising (lines 68, 73, 81); sizeHuman, durationStr, remoteCount are the du
output, the formatted duration and the remote count string used in the
summary line (lines 78, 77, 82); timestamp is the datetime formatted at
line 51. -/
structure VolEnv where
  name : String
  timestamp : String
  hasData : Bool
  tarStatus : Nat
  tarFileCreated : Bool
  mkdirOk : Bool
  uploadOk : Bool
  countOk : Bool
  sizeHuman : String
  durationStr : String
  remoteCount : String
  deriving DecidableEq, Repr

/-- Whole-run environment: the /mnt listing, whether the configured SSH key
file exists (backup.py line 33), the key path, the remote base path, the
outcome of ssh.connect (lines 40-46), the outcome of the summary email send
and of the failure email send (email_service.py), and the SMTP error text
used when a send raises. -/
structure Env where
  mntEntries : List VolEnv
  sshKeyExists : Bool
  sshKeyPath : String
  remoteBackupPath : String
  connectOk : Bool
  connectErr : String
  summaryEmailOk : Bool
  failureEmailOk : Bool
  smtpErr : String
  deriving DecidableEq, Repr

/-- Mutable observable state threaded through the run: event trace, local
archive files currently on disk, and the backup_summary list. -/
structure RunState where
  trace : List Event
  localFiles : List String
  summary : List String
  deriving DecidableEq, Repr

/-- Archive file name, backup.py line 51. -/
def archiveName (v : VolEnv) : String :=
  v.name ++ "_" ++ v.timestamp ++ ".tar.gz"

/-- Remote folder for a volume, backup.py line 66. -/
def remoteFolder (remotePath : String) (v : VolEnv) : String :=
  remotePath ++ "/" ++ v.name

/-- The archive step succeeded: the exact negation of the skip condition
at backup.py line 61 (tar exited nonzero or the file does not exist). -/
def archiveOk (v : VolEnv) : Bool :=
  !(v.tarStatus != 0 || !v.tarFileCreated)

/-- The summary line appended at backup.py line 88. -/
def entryOf (v : VolEnv) : String :=
  v.name ++ "\n" ++ v.sizeHuman ++ " | " ++ v.durationStr ++ "s | " ++ v.remoteCount

/-- Volume enumeration, backup.py lines 18-22: keep every /mnt entry whose
data subdirectory exists, in listing order. -/
def discoverVolumes (env : Env) : List VolEnv :=
  env.mntEntries.filter (fun v => v.hasData)

/-- Processing of one volume, backup.py lines 49-88.  The tar invocation
always happens and creates the file exactly when tarFileCreated; on archive
failure the loop continues (line 63).  Then the remote mkdir, the upload
and the count query each raise when their flag is false, propagating the
exception (no try around the loop body); on full success the local file is
removed and a summary entry appended.  Returns the new state and none, or
the state at the raise point and some message. -/
def stepVolume (remotePath : String) (v : VolEnv) (st : RunState) : RunState × Option String :=
  let arch := archiveName v
  let folder := remoteFolder remotePath v
  let files1 := if v.tarFileCreated then st.localFiles ++ [arch] else st.localFiles
  if v.tarStatus != 0 || !v.tarFileCreated then
    ({ trace := st.trace ++ [Event.tarCreate arch],
       localFiles := files1, summary := st.summary }, none)
  else if !v.mkdirOk then
    ({ trace := st.trace ++ [Event.tarCreate arch, Event.remoteMkdir folder],
       localFiles := files1, summary := st.summary },
     some ("remote mkdir failed for " ++ v.name))
  else if !v.uploadOk then
    ({ trace := st.trace ++ [Event.tarCreate arch, Event.remoteMkdir folder,
         Event.upload arch folder],
       localFiles := files1, summary := st.summary },
     some ("sftp put failed for " ++ arch))
  else if !v.countOk then
    ({ trace := st.trace ++ [Event.tarCreate arch, Event.remoteMkdir folder,
         Event.upload arch folder, Event.countQuery folder],
       localFiles := files1, summary := st.summary },
     some ("remote count query failed for " ++ folder))
  else
    ({ trace := st.trace ++ [Event.tarCreate arch, Event.remoteMkdir folder,
         Event.upload arch folder, Event.countQuery folder, Event.removeLocal arch],
       localFiles := files1.erase arch,
       summary := st.summary ++ [entryOf v] }, none)

/-- The volume loop, backup.py lines 49-88: volumes in discovery order, a
propagating exception from one volume ends the loop immediately. -/
def processVolumes (remotePath : String) : List VolEnv → RunState → RunState × Option String
  | [], st => (st, none)
  | v :: vs, st =>
    match stepVolume remotePath v st with
    | (st2, some e) => (st2, some e)
    | (st2, none) => processVolumes remotePath vs st2

/-- Email body of the success report, backup.py lines 93-98. -/
def plainBody (entries : List String) : String :=
  "Docker Volume Backup Summary\n\nVolume\nSize | Time | Remote Count\n\n" ++
    String.intercalate "\n\n" (entries.map (fun e => "- " ++ e))

/-- perform_backup, backup.py lines 15-102.  Discover volumes; on empty
list return immediately (line 30) with no email and no connect.  Then the
SSH key existence check raises (line 35), then ssh.connect raises on
failure (line 46).  Then the volume loop; a propagating per-volume
exception skips everything after the loop, including send_email and
ssh.close.  After the loop the summary email is sent (raising on SMTP
failure, in which case ssh.close at line 102 is never reached), then the
session is closed. -/
def perform_backup (env : Env) : RunState × Option String :=
  let vols := discoverVolumes env
  if vols.isEmpty then ({ trace := [], localFiles := [], summary := [] }, none)
  else if !env.sshKeyExists then
    ({ trace := [], localFiles := [], summary := [] },
     some ("SSH key not found at " ++ env.sshKeyPath))
  else
    let st1 : RunState := { trace := [Event.connectAttempt], localFiles := [], summary := [] }
    if !env.connectOk then
      (st1, some ("SSH connection failed: " ++ env.connectErr))
    else
      match processVolumes env.remoteBackupPath vols st1 with
      | (st2, some e) => (st2, some e)
      | (st2, none) =>
        let st3 : RunState :=
          { st2 with trace := st2.trace ++
              [Event.emailAttempt "Docker Volume Backup Report" (plainBody st2.summary)] }
        if !env.summaryEmailOk then
          (st3, some ("Failed to send email: " ++ env.smtpErr))
        else
          ({ st3 with trace := st3.trace ++ [Event.sshClose] }, none)

/-- main, main.py lines 8-17: run perform_backup; any exception is caught
and a failure email with the exception text is attempted.  A failure of
that email itself propagates out of main unhandled. -/
def mainRun (env : Env) : RunState × Option String :=
  match perform_backup env with
  | (st, none) => (st, none)
  | (st, some e) =>
    let st2 : RunState :=
      { st with trace := st.trace ++
          [Event.emailAttempt "Backup Failed" ("An error occurred: " ++ e)] }
    if env.failureEmailOk then (st2, none)
    else (st2, some ("Failed to send email: " ++ env.smtpErr))

/-- RunReport of the specification data model: the ordered summary entries
plus the fatal error of the run if any. -/
structure RunReport where
  entries : List String
  fatalError : Option String
  deriving DecidableEq, Repr

/-- The report a run of the code yields. -/
def runReport (env : Env) : RunReport :=
  { entries := (perform_backup env).1.summary, fatalError := (perform_backup env).2 }

/-- Event classifiers used to count notifications, session closes, archive
creations and remote operations in a trace. -/
def Event.isEmail : Event → Bool
  | .emailAttempt _ _ => true
  | _ => false

def Event.isClose : Event → Bool
  | .sshClose => true
  | _ => false

def Event.isTar : Event → Bool
  | .tarCreate _ => true
  | _ => false

def Event.isRemoteOp : Event → Bool
  | .remoteMkdir _ => true
  | .upload _ _ => true
  | .countQuery _ => true
  | _ => false

def emailCount (tr : List Event) : Nat := tr.countP Event.isEmail
def closeCount (tr : List Event) : Nat := tr.countP Event.isClose
def tarCount (tr : List Event) : Nat := tr.countP Event.isTar
def remoteOpCount (tr : List Event) : Nat := tr.countP Event.isRemoteOp

/-- A volume for which archive, mkdir, upload and count query all
succeed. -/
def volOk (v : VolEnv) : Bool :=
  archiveOk v && (v.mkdirOk && (v.uploadOk && v.countOk))

/-- A volume whose processing does not abort the run: its archive step
fails (skip) or all its remote steps succeed. -/
def noAbort (v : VolEnv) : Bool :=
  !archiveOk v || (v.mkdirOk && (v.uploadOk && v.countOk))

/- Concrete environments used by witnesses and counterexamples. -/

def volGood : VolEnv :=
  { name := "web-data", timestamp := "2024-01-01_00-00-00", hasData := true,
    tarStatus := 0, tarFileCreated := true, mkdirOk := true, uploadOk := true,
    countOk := true, sizeHuman := "1.0M", durationStr := "1.00", remoteCount := "3" }

def volUploadFail : VolEnv :=
  { volGood with name := "db-data", uploadOk := false }

def volArchFail : VolEnv :=
  { volGood with name := "bad-data", tarStatus := 1, tarFileCreated := false }

def envGood : Env :=
  { mntEntries := [volGood], sshKeyExists := true, sshKeyPath := "/root/.ssh/id_rsa",
    remoteBackupPath := "/backups", connectOk := true, connectErr := "",
    summaryEmailOk := true, failureEmailOk := true, smtpErr := "" }

def envUploadFail : Env :=
  { envGood with mntEntries := [volUploadFail, volGood] }

def envEmpty : Env :=
  { envGood with mntEntries := [] }

def envNoKey : Env :=
  { envGood with sshKeyExists := false }

def envNoKeyEmpty : Env :=
  { envEmpty with sshKeyExists := false }

def envConnFail : Env :=
  { envGood with connectOk := false, connectErr := "timeout" }

/- Helper lemmas. -/

/-- The skip condition at backup.py line 61 is the negation of archiveOk. -/
lemma tar_fail_cond (v : VolEnv) : (v.tarStatus != 0 || !v.tarFileCreated) = !archiveOk v := by
  simp [archiveOk]

/-- Processing one volume attempts no notification. -/
lemma stepVolume_emailCount (rp : String) (v : VolEnv) (st : RunState) :
    emailCount (stepVolume rp v st).1.trace = emailCount st.trace := by
  unfold stepVolume
  repeat' split
  all_goals simp [emailCount, List.countP_append, List.countP_cons, Event.isEmail]

/-- Processing one volume never closes the session. -/
lemma stepVolume_closeCount (rp : String) (v : VolEnv) (st : RunState) :
    closeCount (stepVolume rp v st).1.trace = closeCount st.trace := by
  unfold stepVolume
  repeat' split
  all_goals simp [closeCount, List.countP_append, List.countP_cons, Event.isClose]

/-- The volume loop attempts no notification. -/
lemma processVolumes_emailCount (rp : String) (vs : List VolEnv) (st : RunState) :
    emailCount (processVolumes rp vs st).1.trace = emailCount st.trace := by
  induction vs generalizing st with
  | nil => simp [processVolumes]
  | cons v vs ih =>
    unfold processVolumes
    rcases h : stepVolume rp v st with ⟨st2, e⟩
    have he := stepVolume_emailCount rp v st
    rw [h] at he
    cases e with
    | none => simpa [he] using ih st2
    | some msg => simpa using he

/-- The volume loop never closes the session. -/
lemma processVolumes_closeCount (rp : String) (vs : List VolEnv) (st : RunState) :
    closeCount (processVolumes rp vs st).1.trace = closeCount st.trace := by
  induction vs generalizing st with
  | nil => simp [processVolumes]
  | cons v vs ih =>
    unfold processVolumes
    rcases h : stepVolume rp v st with ⟨st2, e⟩
    have he := stepVolume_closeCount rp v st
    rw [h] at he
    cases e with
    | none => simpa [he] using ih st2
    | some msg => simpa using he

/-- When the archive step fails, the step only records the tar attempt
(and, when a partial file was produced, its presence); it performs no
remote operation, removes nothing, appends no summary entry, and raises
no exception. -/
lemma stepVolume_skip (rp : String) (v : VolEnv) (st : RunState) (h : archiveOk v = false) :
    stepVolume rp v st =
      ({ trace := st.trace ++ [Event.tarCreate (archiveName v)],
         localFiles := if v.tarFileCreated then st.localFiles ++ [archiveName v]
                       else st.localFiles,
         summary := st.summary }, none) := by
  unfold stepVolume
  rw [tar_fail_cond v, h]
  simp

/-- When every step of a volume succeeds, the full event sequence is
recorded, the archive file is created and then erased, and exactly one
summary entry is appended. -/
lemma stepVolume_success (rp : String) (v : VolEnv) (st : RunState) (h : volOk v = true) :
    stepVolume rp v st =
      ({ trace := st.trace ++ [Event.tarCreate (archiveName v),
           Event.remoteMkdir (remoteFolder rp v),
           Event.upload (archiveName v) (remoteFolder rp v),
           Event.countQuery (remoteFolder rp v),
           Event.removeLocal (archiveName v)],
         localFiles := (st.localFiles ++ [archiveName v]).erase (archiveName v),
         summary := st.summary ++ [entryOf v] }, none) := by
  have h' : v.tarStatus = 0 ∧ v.tarFileCreated = true ∧ v.mkdirOk = true ∧
      v.uploadOk = true ∧ v.countOk = true := by
    simpa [volOk, archiveOk, and_assoc] using h
  obtain ⟨h1, h2, h3, h4, h5⟩ := h'
  unfold stepVolume
  simp [h1, h2, h3, h4, h5]

/-- When the archive step succeeds but a remote step fails, the step
raises and appends no summary entry. -/
lemma stepVolume_abort (rp : String) (v : VolEnv) (st : RunState)
    (h1 : archiveOk v = true) (h2 : (v.mkdirOk && (v.uploadOk && v.countOk)) = false) :
    (stepVolume rp v st).2.isSome = true ∧ (stepVolume rp v st).1.summary = st.summary := by
  have h' : v.tarStatus = 0 ∧ v.tarFileCreated = true := by
    simpa [archiveOk] using h1
  cases hm : v.mkdirOk <;> cases hu : v.uploadOk <;> cases hc : v.countOk <;>
    simp [hm, hu, hc] at h2 ⊢ <;>
    simp [stepVolume, h'.1, h'.2, hm, hu, hc]

/-- Summary entries produced by the volume loop: exactly the fully
successful volumes of the prefix before the first run-aborting volume, in
order. -/
lemma processVolumes_summary (rp : String) (vs : List VolEnv) (st : RunState) :
    (processVolumes rp vs st).1.summary =
      st.summary ++ ((vs.takeWhile noAbort).filter volOk).map entryOf := by
  induction vs generalizing st with
  | nil => simp [processVolumes]
  | cons v vs ih =>
    unfold processVolumes
    cases harch : archiveOk v with
    | false =>
      rw [stepVolume_skip rp v st harch]
      simp [ih, List.takeWhile_cons, List.filter_cons, noAbort, volOk, harch]
    | true =>
      cases hrest : (v.mkdirOk && (v.uploadOk && v.countOk)) with
      | false =>
        have habort := stepVolume_abort rp v st harch hrest
        rcases hstep : stepVolume rp v st with ⟨st2, e⟩
        rw [hstep] at habort
        cases e with
        | none => simp at habort
        | some msg =>
          simp at habort
          simp [List.takeWhile_cons, noAbort, harch, hrest, habort]
      | true =>
        have hok : volOk v = true := by simp [volOk, harch, hrest]
        rw [stepVolume_success rp v st hok]
        simp [ih, List.takeWhile_cons, List.filter_cons, noAbort, volOk, harch, hrest]

/-- Shape of perform_backup on an empty volume list: return at backup.py
line 30, before the key check, the connect and the email. -/
lemma perform_backup_empty (env : Env) (h : (discoverVolumes env).isEmpty = true) :
    perform_backup env = ({ trace := [], localFiles := [], summary := [] }, none) := by
  simp [perform_backup, h]

/-- Shape of perform_backup when volumes exist but the SSH key file is
missing: the exception of backup.py line 35 before any volume work. -/
lemma perform_backup_nokey (env : Env) (h1 : (discoverVolumes env).isEmpty = false)
    (h2 : env.sshKeyExists = false) :
    perform_backup env =
      ({ trace := [], localFiles := [], summary := [] },
       some ("SSH key not found at " ++ env.sshKeyPath)) := by
  simp [perform_backup, h1, h2]

/-- Shape of perform_backup when the connection attempt raises: the
exception of backup.py line 46 before any volume work. -/
lemma perform_backup_noconn (env : Env) (h1 : (discoverVolumes env).isEmpty = false)
    (h2 : env.sshKeyExists = true) (h3 : env.connectOk = false) :
    perform_backup env =
      ({ trace := [Event.connectAttempt], localFiles := [], summary := [] },
       some ("SSH connection failed: " ++ env.connectErr)) := by
  simp [perform_backup, h1, h2, h3]

/-- Shape of perform_backup when the run reaches the volume loop. -/
lemma perform_backup_loop (env : Env) (h1 : (discoverVolumes env).isEmpty = false)
    (h2 : env.sshKeyExists = true) (h3 : env.connectOk = true) :
    perform_backup env =
      match processVolumes env.remoteBackupPath (discoverVolumes env)
          { trace := [Event.connectAttempt], localFiles := [], summary := [] } with
      | (st2, some e) => (st2, some e)
      | (st2, none) =>
        if !env.summaryEmailOk then
          ({ trace := st2.trace ++
               [Event.emailAttempt "Docker Volume Backup Report" (plainBody st2.summary)],
             localFiles := st2.localFiles, summary := st2.summary },
           some ("Failed to send email: " ++ env.smtpErr))
        else
          ({ trace := (st2.trace ++
               [Event.emailAttempt "Docker Volume Backup Report" (plainBody st2.summary)]) ++
               [Event.sshClose],
             localFiles := st2.localFiles, summary := st2.summary }, none) := by
  unfold perform_backup
  simp only [h1, h2, h3, Bool.not_true, Bool.false_eq_true, if_false]

/- Claim C1. -/

/-- C1 counterexample: with volumes db-data (upload raises) then web-data,
the upload failure does not merely skip db-data: perform_backup ends with
a propagating exception, web-data is never archived (no tarCreate event
for it), and no summary entry at all is produced — the error unwinds past
the single volume and aborts the run, refuting the claim that the run
continues with the next volume in discovery order. -/
theorem C1_claim_counterexample :
    (perform_backup envUploadFail).2 =
      some "sftp put failed for db-data_2024-01-01_00-00-00.tar.gz" ∧
    Event.tarCreate (archiveName volGood) ∉ (perform_backup envUploadFail).1.trace ∧
    (perform_backup envUploadFail).1.summary = [] := by
  refine ⟨by decide, by decide, by decide⟩

/-- C1 amended: a failure of the remote directory provisioning step or of
the upload step raises an exception that aborts the entire volume loop at
that volume: the loop returns that exception, no summary entry is produced
for the volume, and no subsequent volume is processed (the result is
independent of the remaining volume list). -/
theorem C1_amended_run_abort (rp : String) (v : VolEnv) (vs : List VolEnv) (st : RunState)
    (h : archiveOk v = true) :
    (v.mkdirOk = false →
      processVolumes rp (v :: vs) st =
        ({ trace := st.trace ++ [Event.tarCreate (archiveName v),
             Event.remoteMkdir (remoteFolder rp v)],
           localFiles := st.localFiles ++ [archiveName v],
           summary := st.summary }, some ("remote mkdir failed for " ++ v.name))) ∧
    (v.mkdirOk = true → v.uploadOk = false →
      processVolumes rp (v :: vs) st =
        ({ trace := st.trace ++ [Event.tarCreate (archiveName v),
             Event.remoteMkdir (remoteFolder rp v),
             Event.upload (archiveName v) (remoteFolder rp v)],
           localFiles := st.localFiles ++ [archiveName v],
           summary := st.summary }, some ("sftp put failed for " ++ archiveName v))) := by
  have h' : v.tarStatus = 0 ∧ v.tarFileCreated = true := by
    simpa [archiveOk] using h
  constructor
  · intro hm
    unfold processVolumes stepVolume
    simp [h'.1, h'.2, hm]
  · intro hm hu
    unfold processVolumes stepVolume
    simp [h'.1, h'.2, hm, hu]

/-- C1 amended witness at the concrete upload-failing volume. -/
theorem C1_amended_run_abort_witness :
    archiveOk volUploadFail = true ∧ volUploadFail.mkdirOk = true ∧
    volUploadFail.uploadOk = false ∧
    processVolumes "/backups" [volUploadFail, volGood]
        { trace := [], localFiles := [], summary := [] } =
      ({ trace := [] ++ [Event.tarCreate (archiveName volUploadFail),
           Event.remoteMkdir (remoteFolder "/backups" volUploadFail),
           Event.upload (archiveName volUploadFail) (remoteFolder "/backups" volUploadFail)],
         localFiles := [] ++ [archiveName volUploadFail],
         summary := [] }, some ("sftp put failed for " ++ archiveName volUploadFail)) :=
  ⟨by decide, by decide, by decide,
   (C1_amended_run_abort "/backups" volUploadFail [volGood]
      { trace := [], localFiles := [], summary := [] } (by decide)).2 (by decide) (by decide)⟩

/- Claim C2. -/

/-- C2 counterexample: when the upload for db-data raises, os.remove is
never reached, so the local archive file is still on disk after the run —
refuting the claim that the local archive never exists after the
processing step regardless of success or failure. -/
theorem C2_claim_counterexample :
    (perform_backup envUploadFail).1.localFiles =
      ["db-data_2024-01-01_00-00-00.tar.gz"] ∧
    (perform_backup envUploadFail).1.localFiles ≠ [] := by
  refine ⟨by decide, by decide⟩

/-- C2 amended: the local archive file is deleted only when the whole
transfer phase succeeds: for a volume whose archive, remote mkdir, upload
and remote count query all succeed, the step removes the file it created,
leaving the local files exactly as before; when the transfer raises, the
file remains. -/
theorem C2_amended_delete_on_success (rp : String) (v : VolEnv) (st : RunState)
    (h1 : volOk v = true) (h2 : archiveName v ∉ st.localFiles) :
    (stepVolume rp v st).1.localFiles = st.localFiles ∧
    (stepVolume rp v st).2 = none := by
  rw [stepVolume_success rp v st h1]
  refine ⟨?_, rfl⟩
  simp [List.erase_append_right _ h2]

/-- C2 amended witness at the concrete fully succeeding volume. -/
theorem C2_amended_delete_on_success_witness :
    volOk volGood = true ∧
    archiveName volGood ∉ ([] : List String) ∧
    (stepVolume "/backups" volGood { trace := [], localFiles := [], summary := [] }).1.localFiles
      = [] ∧
    (stepVolume "/backups" volGood { trace := [], localFiles := [], summary := [] }).2 = none :=
  ⟨by decide, by decide,
   (C2_amended_delete_on_success "/backups" volGood
      { trace := [], localFiles := [], summary := [] } (by decide) (by decide)).1,
   (C2_amended_delete_on_success "/backups" volGood
      { trace := [], localFiles := [], summary := [] } (by decide) (by decide)).2⟩

/- Claim C7. -/

/-- C7: a volume whose archival step fails (nonzero tar status or no file
produced) contributes no summary entry and does not abort the run: the
loop at that volume reduces to the loop on the remaining volumes, with
only the tar attempt recorded and the summary unchanged, so all
subsequent volumes are still attempted. -/
theorem C7_archive_failure_skips_volume (rp : String) (v : VolEnv) (vs : List VolEnv)
    (st : RunState) (h : archiveOk v = false) :
    processVolumes rp (v :: vs) st =
      processVolumes rp vs
        { trace := st.trace ++ [Event.tarCreate (archiveName v)],
          localFiles := if v.tarFileCreated then st.localFiles ++ [archiveName v]
                        else st.localFiles,
          summary := st.summary } := by
  simp only [processVolumes]
  rw [stepVolume_skip rp v st h]

/-- C7 witness at the concrete archive-failing volume followed by a
succeeding one. -/
theorem C7_archive_failure_skips_volume_witness :
    archiveOk volArchFail = false ∧
    processVolumes "/backups" [volArchFail, volGood]
        { trace := [], localFiles := [], summary := [] } =
      processVolumes "/backups" [volGood]
        { trace := [] ++ [Event.tarCreate (archiveName volArchFail)],
          localFiles := if volArchFail.tarFileCreated then [] ++ [archiveName volArchFail]
                        else [],
          summary := [] } :=
  ⟨by decide,
   C7_archive_failure_skips_volume "/backups" volArchFail [volGood]
     { trace := [], localFiles := [], summary := [] } (by decide)⟩

/- Claim C10. -/

/-- C10: for a volume whose archival step fails, no remote operation is
performed: the step records only the tar attempt, raises nothing, and the
number of remote operations (mkdir, upload, count query) in the trace is
unchanged. -/
theorem C10_archive_failure_frame (rp : String) (v : VolEnv) (st : RunState)
    (h : archiveOk v = false) :
    (stepVolume rp v st).1.trace = st.trace ++ [Event.tarCreate (archiveName v)] ∧
    (stepVolume rp v st).2 = none ∧
    remoteOpCount (stepVolume rp v st).1.trace = remoteOpCount st.trace := by
  rw [stepVolume_skip rp v st h]
  refine ⟨rfl, rfl, ?_⟩
  simp [remoteOpCount, List.countP_append, List.countP_cons, Event.isRemoteOp]

/-- C10 witness at the concrete archive-failing volume. -/
theorem C10_archive_failure_frame_witness :
    archiveOk volArchFail = false ∧
    (stepVolume "/backups" volArchFail { trace := [], localFiles := [], summary := [] }).1.trace
      = [] ++ [Event.tarCreate (archiveName volArchFail)] ∧
    (stepVolume "/backups" volArchFail { trace := [], localFiles := [], summary := [] }).2
      = none ∧
    remoteOpCount
        (stepVolume "/backups" volArchFail
          { trace := [], localFiles := [], summary := [] }).1.trace
      = remoteOpCount ([] : List Event) := by
  refine ⟨by decide, ?_⟩
  exact C10_archive_failure_frame "/backups" volArchFail
    { trace := [], localFiles := [], summary := [] } (by decide)

/- Claim C3. -/

/-- C3 counterexample: in the upload-failure run the session is
established (the connect attempt is in the trace) yet sshClose is never
invoked: the propagating exception skips the close call at backup.py line
102, refuting the claim that close is invoked once on every exit path. -/
theorem C3_claim_counterexample :
    Event.connectAttempt ∈ (perform_backup envUploadFail).1.trace ∧
    closeCount (perform_backup envUploadFail).1.trace = 0 := by
  refine ⟨by decide, by decide⟩

/-- C3 amended: the session close is invoked exactly once when and only
when the run completes normally, that is when at least one volume was
discovered and no exception propagated; on every exceptional exit path,
and on the zero-volume early return, it is never invoked. -/
theorem C3_amended_close_only_on_normal_completion (env : Env) :
    closeCount (perform_backup env).1.trace =
      if (perform_backup env).2 = none ∧ discoverVolumes env ≠ [] then 1 else 0 := by
  cases hvols : (discoverVolumes env).isEmpty with
  | true =>
    have h : discoverVolumes env = [] := List.isEmpty_iff.mp hvols
    rw [perform_backup_empty env hvols]
    simp [closeCount, h]
  | false =>
    have hne : discoverVolumes env ≠ [] := by
      intro hc
      rw [hc] at hvols
      simp at hvols
    cases hkey : env.sshKeyExists with
    | false =>
      rw [perform_backup_nokey env hvols hkey]
      simp [closeCount]
    | true =>
      cases hconn : env.connectOk with
      | false =>
        rw [perform_backup_noconn env hvols hkey hconn]
        simp [closeCount, List.countP_cons, Event.isClose]
      | true =>
        rw [perform_backup_loop env hvols hkey hconn]
        have hcc := processVolumes_closeCount env.remoteBackupPath (discoverVolumes env)
          { trace := [Event.connectAttempt], localFiles := [], summary := [] }
        rcases hp : processVolumes env.remoteBackupPath (discoverVolumes env)
            { trace := [Event.connectAttempt], localFiles := [], summary := [] } with ⟨st2, e⟩
        rw [hp] at hcc
        have hcc0 : closeCount st2.trace = 0 := by
          simpa [closeCount, List.countP_cons, Event.isClose] using hcc
        cases e with
        | some msg => simp [hcc0]
        | none =>
          cases hmail : env.summaryEmailOk with
          | false =>
            simp only [hmail, Bool.not_false, Bool.true_eq_false, if_true]
            simp [closeCount, List.countP_append, List.countP_cons, Event.isClose] at hcc0 ⊢
            exact hcc0
          | true =>
            simp only [hmail, Bool.not_true, Bool.false_eq_true, if_false]
            simp [closeCount, List.countP_append, List.countP_cons, Event.isClose, hne] at hcc0 ⊢
            exact hcc0

/- Claim C4. -/

/-- C4 counterexample: a run with zero discovered volumes attempts no
notification at all, and in a fully successful run the notification is
followed by the session close, so it is not the last observable action —
refuting both parts of the claim. -/
theorem C4_claim_counterexample :
    emailCount (mainRun envEmpty).1.trace = 0 ∧
    (mainRun envGood).1.trace.getLast? = some Event.sshClose ∧
    Event.isEmail Event.sshClose = false := by
  refine ⟨by decide, by decide, by decide⟩

/-- C4 amended: when at least one volume is discovered and the
notification channel itself does not fail, the process attempts exactly
one notification — the success report or the failure detail; a zero-volume
run attempts none, and on the success path the notification is followed by
the session close rather than being the last action. -/
theorem C4_amended_single_notification (env : Env)
    (h1 : discoverVolumes env ≠ []) (h2 : env.summaryEmailOk = true) :
    emailCount (mainRun env).1.trace = 1 := by
  have hvols : (discoverVolumes env).isEmpty = false := by
    cases hv : (discoverVolumes env).isEmpty
    · rfl
    · exact absurd (List.isEmpty_iff.mp hv) h1
  cases hkey : env.sshKeyExists with
  | false =>
    unfold mainRun
    rw [perform_backup_nokey env hvols hkey]
    cases hfe : env.failureEmailOk <;>
      simp [hfe, emailCount, List.countP_append, List.countP_cons, Event.isEmail]
  | true =>
    cases hconn : env.connectOk with
    | false =>
      unfold mainRun
      rw [perform_backup_noconn env hvols hkey hconn]
      cases hfe : env.failureEmailOk <;>
        simp [hfe, emailCount, List.countP_append, List.countP_cons, Event.isEmail]
    | true =>
      unfold mainRun
      rw [perform_backup_loop env hvols hkey hconn]
      have hec := processVolumes_emailCount env.remoteBackupPath (discoverVolumes env)
        { trace := [Event.connectAttempt], localFiles := [], summary := [] }
      rcases hp : processVolumes env.remoteBackupPath (discoverVolumes env)
          { trace := [Event.connectAttempt], localFiles := [], summary := [] } with ⟨st2, e⟩
      rw [hp] at hec
      have hec0 : st2.trace.countP Event.isEmail = 0 := by
        simpa [emailCount, List.countP_cons, Event.isEmail] using hec
      cases e with
      | some msg =>
        cases hfe : env.failureEmailOk <;>
          simp [hfe, emailCount, List.countP_append, List.countP_cons, Event.isEmail, hec0]
      | none =>
        simp [h2, emailCount, List.countP_append, List.countP_cons, Event.isEmail, hec0]

/-- C4 amended witness at the concrete upload-failure environment, whose
run fails mid-loop and attempts exactly the one failure notification. -/
theorem C4_amended_single_notification_witness :
    discoverVolumes envUploadFail ≠ [] ∧ envUploadFail.summaryEmailOk = true ∧
    emailCount (mainRun envUploadFail).1.trace = 1 :=
  ⟨by decide, by decide,
   C4_amended_single_notification envUploadFail (by decide) (by decide)⟩

/- Claim C5. -/

/-- C5: when at least one volume is discovered, the key file exists, and
the connection attempt raises, the whole run aborts before any volume is
processed: the report has zero entries and a non-empty fatal error
carrying the connection error text, no archive file was created or is
left on local disk, and the Reporter is invoked with the failure detail
containing the connection error text. -/
theorem C5_connection_failure_fatal (env : Env)
    (h1 : discoverVolumes env ≠ []) (h2 : env.sshKeyExists = true)
    (h3 : env.connectOk = false) :
    perform_backup env =
      ({ trace := [Event.connectAttempt], localFiles := [], summary := [] },
       some ("SSH connection failed: " ++ env.connectErr)) ∧
    runReport env =
      { entries := [], fatalError := some ("SSH connection failed: " ++ env.connectErr) } ∧
    ("SSH connection failed: " ++ env.connectErr).length ≠ 0 ∧
    tarCount (perform_backup env).1.trace = 0 ∧
    (mainRun env).1.trace =
      [Event.connectAttempt,
       Event.emailAttempt "Backup Failed"
         ("An error occurred: " ++ ("SSH connection failed: " ++ env.connectErr))] := by
  have hvols : (discoverVolumes env).isEmpty = false := by
    cases hv : (discoverVolumes env).isEmpty
    · rfl
    · exact absurd (List.isEmpty_iff.mp hv) h1
  have hpb := perform_backup_noconn env hvols h2 h3
  refine ⟨hpb, ?_, ?_, ?_, ?_⟩
  · simp [runReport, hpb]
  · have hlen : ("SSH connection failed: " : String).length = 23 := rfl
    simp [String.length_append, hlen]
  · simp [hpb, tarCount, List.countP_cons, Event.isTar]
  · unfold mainRun
    rw [hpb]
    cases hfe : env.failureEmailOk <;> simp [hfe]

/-- C5 witness at the concrete connection-failing environment. -/
theorem C5_connection_failure_fatal_witness :
    discoverVolumes envConnFail ≠ [] ∧ envConnFail.sshKeyExists = true ∧
    envConnFail.connectOk = false ∧
    runReport envConnFail =
      { entries := [], fatalError := some ("SSH connection failed: " ++ envConnFail.connectErr) } :=
  ⟨by decide, by decide, by decide,
   (C5_connection_failure_fatal envConnFail (by decide) (by decide) (by decide)).2.1⟩

/- Claim C6. -/

/-- C6 counterexample: with zero discovered volumes perform_backup returns
at backup.py line 30 before send_email, so the Reporter is never invoked —
refuting the claim that a success message is still sent. -/
theorem C6_claim_counterexample :
    discoverVolumes envEmpty = [] ∧
    (perform_backup envEmpty).2 = none ∧
    emailCount (mainRun envEmpty).1.trace = 0 := by
  refine ⟨by decide, by decide, by decide⟩

/-- C6 amended: a run with zero discovered volumes finishes successfully
with zero entries and no fatal error, but no notification of any kind is
attempted: the function returns before the report is built and before the
Reporter is invoked. -/
theorem C6_amended_empty_run_no_notification (env : Env)
    (h : discoverVolumes env = []) :
    perform_backup env = ({ trace := [], localFiles := [], summary := [] }, none) ∧
    emailCount (mainRun env).1.trace = 0 := by
  have hpb := perform_backup_empty env (by simp [h])
  refine ⟨hpb, ?_⟩
  unfold mainRun
  rw [hpb]
  simp [emailCount]

/-- C6 amended witness at the concrete empty environment. -/
theorem C6_amended_empty_run_no_notification_witness :
    discoverVolumes envEmpty = [] ∧
    perform_backup envEmpty = ({ trace := [], localFiles := [], summary := [] }, none) ∧
    emailCount (mainRun envEmpty).1.trace = 0 :=
  ⟨by decide,
   (C6_amended_empty_run_no_notification envEmpty (by decide)).1,
   (C6_amended_empty_run_no_notification envEmpty (by decide)).2⟩

/- Claim C8. -/

/-- C8 counterexample: with the SSH key file absent but zero discovered
volumes, the run returns successfully at backup.py line 30 before the key
check at line 33 — no fatal error is raised and no failure is reported,
refuting the claim that every run with missing SSH configuration fails. -/
theorem C8_claim_counterexample :
    envNoKeyEmpty.sshKeyExists = false ∧
    (perform_backup envNoKeyEmpty).2 = none ∧
    (mainRun envNoKeyEmpty).2 = none ∧
    emailCount (mainRun envNoKeyEmpty).1.trace = 0 := by
  refine ⟨by decide, by decide, by decide, by decide⟩

/-- C8 amended: only the private-key material is checked, and only when at
least one volume was discovered: in that case its absence raises a fatal
error before any archiving and the failure is surfaced to the Reporter;
absence of remote host or user is never separately validated and the
zero-volume early return skips the check entirely. -/
theorem C8_amended_key_check_with_volumes (env : Env)
    (h1 : discoverVolumes env ≠ []) (h2 : env.sshKeyExists = false) :
    (perform_backup env).2 = some ("SSH key not found at " ++ env.sshKeyPath) ∧
    tarCount (perform_backup env).1.trace = 0 ∧
    (mainRun env).1.trace =
      [Event.emailAttempt "Backup Failed"
        ("An error occurred: " ++ ("SSH key not found at " ++ env.sshKeyPath))] := by
  have hvols : (discoverVolumes env).isEmpty = false := by
    cases hv : (discoverVolumes env).isEmpty
    · rfl
    · exact absurd (List.isEmpty_iff.mp hv) h1
  have hpb := perform_backup_nokey env hvols h2
  refine ⟨by rw [hpb], by simp [hpb, tarCount], ?_⟩
  unfold mainRun
  rw [hpb]
  cases hfe : env.failureEmailOk <;> simp [hfe]

/-- C8 amended witness at the concrete missing-key environment with one
volume. -/
theorem C8_amended_key_check_with_volumes_witness :
    discoverVolumes envNoKey ≠ [] ∧ envNoKey.sshKeyExists = false ∧
    (perform_backup envNoKey).2 = some ("SSH key not found at " ++ envNoKey.sshKeyPath) :=
  ⟨by decide, by decide,
   (C8_amended_key_check_with_volumes envNoKey (by decide) (by decide)).1⟩

/- Claim C9. -/

/-- C9: the entries of the RunReport are exactly the fully successful
volumes (archive AND transfer succeeded) of the prefix of the discovery
order that was reached before any run-aborting volume, mapped to their
summary line in discovery order; a volume failing either step contributes
no entry, and on the pre-loop exits the report is empty. -/
theorem C9_entries_successes_in_order (env : Env) :
    (runReport env).entries =
      if discoverVolumes env = [] ∨ env.sshKeyExists = false ∨ env.connectOk = false then []
      else (((discoverVolumes env).takeWhile noAbort).filter volOk).map entryOf := by
  cases hvols : (discoverVolumes env).isEmpty with
  | true =>
    have h := List.isEmpty_iff.mp hvols
    simp [runReport, perform_backup_empty env hvols, h]
  | false =>
    have hne : discoverVolumes env ≠ [] := by
      intro hc
      rw [hc] at hvols
      simp at hvols
    cases hkey : env.sshKeyExists with
    | false => simp [runReport, perform_backup_nokey env hvols hkey, hne, hkey]
    | true =>
      cases hconn : env.connectOk with
      | false => simp [runReport, perform_backup_noconn env hvols hkey hconn, hne, hkey, hconn]
      | true =>
        unfold runReport
        rw [perform_backup_loop env hvols hkey hconn]
        have hsum := processVolumes_summary env.remoteBackupPath (discoverVolumes env)
          { trace := [Event.connectAttempt], localFiles := [], summary := [] }
        rcases hp : processVolumes env.remoteBackupPath (discoverVolumes env)
            { trace := [Event.connectAttempt], localFiles := [], summary := [] } with ⟨st2, e⟩
        rw [hp] at hsum
        have hsum0 : st2.summary =
            (((discoverVolumes env).takeWhile noAbort).filter volOk).map entryOf := by
          simpa using hsum
        cases e with
        | some msg => simp [hne, hkey, hconn, hsum0]
        | none =>
          cases hmail : env.summaryEmailOk <;> simp [hmail, hne, hkey, hconn, hsum0]

end Dockup
